import Mathlib

/-! Verification development for the MontanaMAPLL backend core.

Two components are shallowly embedded from the source:

* the MBTiles tile store (`backend/tiles.py`: `TileServer.get_tile` and the
  endpoint wrapper `get_ownership_tile`), and
* the AISStream relay (`backend/ais_stream.py`: `AISStreamManager.broadcast`,
  `connect_to_ais_stream` and `start`).

Machine-level conventions of the embedding: tile blobs are `List Nat`
(byte lists); Python exceptions become explicit error values in `Except`;
the SQLite `tiles` table is the exact-match index the point query reads;
the external `json` and transport libraries are parameters (a serializer
function, a parse oracle, per-client send outcomes); cooperative-scheduler
interleavings are injected explicitly at the `await` suspension points. -/

namespace Tiles

/-- Failure modes of `TileServer.get_tile`, one constructor per Python
exception that can leave the function: `valueError` is the
`ValueError: negative shift count` raised by `1 << z` for `z < 0`;
`fileNotFound` is the `FileNotFoundError` raised by `_get_connection` when
the MBTiles file is absent; `http404` is the `HTTPException(404)` raised
when the point query returns no row. -/
inductive TileErr where
  | valueError
  | fileNotFound
  | http404
deriving DecidableEq

/-- The `tiles` table of the MBTiles file, seen through the exact-match point
query `SELECT tile_data FROM tiles WHERE zoom_level=? AND tile_column=? AND
tile_row=?`: a partial map from `(zoom_level, tile_column, tile_row)` to the
stored `tile_data` blob. -/
def TileDB := Int × Int × Int → Option (List Nat)

/-- The state of a `TileServer` instance: whether the MBTiles file exists on
disk (checked by `_get_connection` at first open) and the indexed contents
of its `tiles` table. -/
structure TileServer where
  fileOnDisk : Bool
  db : TileDB

/-- `TileServer.get_tile` from `backend/tiles.py`. Faithful to the source
order: the row flip `tile_row = (1 << z) - 1 - y` is computed first (for
`z < 0` Python's shift raises `ValueError` there, before any file access),
then `_get_connection` raises `FileNotFoundError` when the MBTiles file is
missing, then the point query either returns the stored blob verbatim
(`return row[0]` — no decompression, transformation or validation) or, on a
missing row, raises the 404 `HTTPException`. -/
def get_tile (srv : TileServer) (z x y : Int) : Except TileErr (List Nat) :=
  if z < 0 then
    .error .valueError
  else
    let tile_row : Int := 2 ^ z.toNat - 1 - y
    if srv.fileOnDisk then
      match srv.db (z, x, tile_row) with
      | some blob => .ok blob
      | none => .error .http404
    else
      .error .fileNotFound

/-- The observable part of the HTTP response built by `get_ownership_tile`:
status, body bytes, and the `Content-Encoding` header. -/
structure HttpResponse where
  status : Nat
  body : Option (List Nat)
  contentEncoding : Option String
deriving DecidableEq

/-- `get_ownership_tile` from `backend/tiles.py` (also the body of the
`/tiles/ownership/{z}/{x}/{y}.pbf` route in `backend/main.py`, which merely
delegates). It maps the outcome of `get_tile` through the except cascade of
the source: success → 200 with the blob and `Content-Encoding: gzip`;
`FileNotFoundError` → 500; the 404 `HTTPException` is re-raised → 404; any
other exception (such as the negative-shift `ValueError`) → the generic
500 branch. -/
def get_ownership_tile (srv : TileServer) (z x y : Int) : HttpResponse :=
  match get_tile srv z x y with
  | .ok blob => ⟨200, some blob, some "gzip"⟩
  | .error .http404 => ⟨404, none, none⟩
  | .error .fileNotFound => ⟨500, none, none⟩
  | .error .valueError => ⟨500, none, none⟩

end Tiles

namespace AisStream

/-- A downstream WebSocket client, identified (as Python sets identify
members) only by identity; modelled as a number. -/
abbrev Client := Nat

/-- A mutation of `self.clients` performed by another task of the
cooperative scheduler while `broadcast` is suspended at an `await`:
`add c` is `add_client`'s `self.clients.add(c)`, `remove c` is
`remove_client`'s `self.clients.discard(c)`. -/
inductive SetEv where
  | add (c : Client)
  | remove (c : Client)

/-- Apply one concurrent mutation to the membership list that models the
Python set `self.clients` (uniqueness by identity, `add` of a present
member and `discard` of an absent one are no-ops). -/
def applyEv (live : List Client) : SetEv → List Client
  | .add c => if live.contains c then live else live ++ [c]
  | .remove c => List.erase live c

/-- Apply, in order, the concurrent mutations that run during one `await`. -/
def applyEvs (live : List Client) (evs : List SetEv) : List Client :=
  evs.foldl applyEv live

/-- The Python exception that can escape `broadcast`: CPython raises
`RuntimeError: Set changed size during iteration` from the set iterator's
next step whenever the set's size differs from its size at iterator
creation. -/
inductive PyErr where
  | runtimeError
deriving DecidableEq

/-- The send loop of `broadcast` (`for client in self.clients: try ...`),
together with the CPython set-iterator semantics it runs under: the
iterator is created on the live set and will yield the members present at
creation (`toVisit`), but before yielding each next member — and before
reporting exhaustion — it compares the set's current size against its size
at creation (`sizeInit`) and raises `RuntimeError` when they differ.
One send is attempted per yielded member (`attempts`); a successful send
is recorded in `delivered`, a failing one in the local
`disconnected_clients` accumulator (`disc`) — the set itself is not touched
inside the loop. The concurrent mutations `evs.headD []` run while the
loop is suspended in `await client.send_text(...)`. Returns
`(attempts, delivered, disc, live set after the loop)`. -/
def sendLoop (serialize : String → String) (sendOk : Client → Bool)
    (message : String) (sizeInit : Nat) :
    List Client → List Client → List (List SetEv) →
    Except PyErr (List (Client × String) × List Client × List Client × List Client)
  | toVisit, live, evs =>
    if live.length = sizeInit then
      match toVisit with
      | [] => .ok ([], [], [], live)
      | c :: rest =>
        match sendLoop serialize sendOk message sizeInit rest
            (applyEvs live (evs.headD [])) evs.tail with
        | .error e => .error e
        | .ok (att, del, disc, liveEnd) =>
          .ok ((c, serialize message) :: att,
               (if sendOk c then [c] else []) ++ del,
               (if sendOk c then [] else [c]) ++ disc,
               liveEnd)
    else
      .error .runtimeError

/-- What one `broadcast` call did: the send attempts in order (each with
the payload string passed to `send_text`), the clients whose send
succeeded, the registry `self.clients` after the call, and how many times
`json.dumps` ran. -/
structure BroadcastResult where
  attempts : List (Client × String)
  delivered : List Client
  clientsAfter : List Client
  serializations : Nat
deriving DecidableEq

/-- `AISStreamManager.broadcast` from `backend/ais_stream.py`. Parameters
standing for the environment: `serialize` is `json.dumps`; `sendOk c`
tells whether `await c.send_text(...)` succeeds or raises; `evs` gives the
concurrent `self.clients` mutations run by other tasks at each `await`
suspension point, in loop order (empty lists model an interleaving-free
call). The source: on an empty client set return immediately (no
serialization); otherwise serialize the message once, iterate the live set
(not a copy) attempting one send per member, collecting failures in
`disconnected_clients`, and finally remove the collected failures with
`self.clients -= disconnected_clients`. -/
def broadcast (serialize : String → String) (sendOk : Client → Bool)
    (clients : List Client) (message : String) (evs : List (List SetEv)) :
    Except PyErr BroadcastResult :=
  match clients with
  | [] => .ok ⟨[], [], [], 0⟩
  | _ =>
    match sendLoop serialize sendOk message clients.length clients clients evs with
    | .error e => .error e
    | .ok (att, del, disc, liveEnd) =>
      .ok ⟨att, del, liveEnd.filter (fun c => !(disc.contains c)), 1⟩

/-- How one upstream WebSocket session ends after its inbound messages are
exhausted: `cleanClose` is a normal closure (close code 1000/1001), on
which the `async for` iterator of the websockets library exits without an
exception; `recvError` is an abnormal closure or network failure, on which
the iterator raises `ConnectionClosedError`. -/
inductive CloseCause where
  | cleanClose
  | recvError
deriving DecidableEq

/-- One behaviour of the external world for a single call of
`connect_to_ais_stream`: whether `websockets.connect` succeeds, whether
the subscription `websocket.send(...)` succeeds, the raw inbound messages
the session yields in order, and how the session ends after them. -/
structure Scenario where
  connectOk : Bool
  sendSubOk : Bool
  inbound : List String
  closeCause : CloseCause
deriving DecidableEq

/-- The exception classes that can abort one connection attempt, as the
single `except Exception` of `connect_to_ais_stream` sees them:
a failed `websockets.connect`, a failed subscription send, the
`json.JSONDecodeError` of `json.loads`, and the `ConnectionClosedError` of
an abnormal close. -/
inductive StreamErr where
  | connectFailed
  | sendFailed
  | parseError
  | recvFailed
deriving DecidableEq

/-- The externally observable events of the relay, in order: one
`websockets.connect` call, the subscription send completing, one inbound
message yielded by the `async for`, one `self.broadcast(data)` call with
the parsed payload, and one `asyncio.sleep(seconds)`. -/
inductive REv where
  | connectAttempt
  | subscribeSent
  | received (m : String)
  | broadcastCall (d : String)
  | sleep (seconds : Nat)
deriving DecidableEq

/-- The `async for message in websocket` body of `connect_to_ais_stream`:
each yielded message is parsed and forwarded through `self.broadcast` only
when `self.clients` is non-empty (`if self.clients:`); with no clients the
message is skipped without parsing. `parse` stands for `json.loads`,
returning the decoded payload or `none` when it raises
`json.JSONDecodeError` — on `none` the loop aborts with a parse error and
the remaining inbound messages are never consumed. Returns the events of
the loop and its outcome. -/
def streamMsgs (parse : String → Option String) (clients : List Client) :
    List String → List REv × Except StreamErr Unit
  | [] => ([], .ok ())
  | m :: rest =>
    if clients.isEmpty then
      let r := streamMsgs parse clients rest
      (.received m :: r.1, r.2)
    else
      match parse m with
      | some d =>
        let r := streamMsgs parse clients rest
        (.received m :: .broadcastCall d :: r.1, r.2)
      | none => ([.received m], .error .parseError)

/-- The `try` body of `connect_to_ais_stream`, one connection attempt:
open the upstream connection; on success send the one subscription message
(the fixed Montana bounding-box filter) before reading anything; then run
the message loop; after a loop that consumed every message, the session's
close cause decides between a normal return and a `ConnectionClosedError`.
Returns the attempt's events and its outcome. -/
def attemptBody (parse : String → Option String) (clients : List Client)
    (s : Scenario) : List REv × Except StreamErr Unit :=
  if s.connectOk then
    if s.sendSubOk then
      let r := streamMsgs parse clients s.inbound
      match r.2 with
      | .error e => (.connectAttempt :: .subscribeSent :: r.1, .error e)
      | .ok () =>
        (.connectAttempt :: .subscribeSent :: r.1,
         match s.closeCause with
         | .cleanClose => .ok ()
         | .recvError => .error .recvFailed)
    else
      ([.connectAttempt], .error .sendFailed)
  else
    ([.connectAttempt], .error .connectFailed)

/-- `AISStreamManager.connect_to_ais_stream` from `backend/ais_stream.py`:
the attempt body wrapped in `try ... except Exception: ...
await asyncio.sleep(5)`. An attempt that raises — any of the four
`StreamErr` causes — is followed by the fixed five-second sleep; an
attempt that returns normally (clean remote close) is not. Either way the
function returns to its caller. -/
def connect_to_ais_stream (parse : String → Option String)
    (clients : List Client) (s : Scenario) : List REv :=
  match attemptBody parse clients s with
  | (evs, .ok ()) => evs
  | (evs, .error _) => evs ++ [.sleep 5]

/-- `AISStreamManager.start` from `backend/ais_stream.py`: the
`while self.running:` supervision loop, calling `connect_to_ais_stream`
over and over. Its own `except`/`sleep` never fires because
`connect_to_ais_stream` catches every exception itself. The model
truncates the infinite loop to a finite list of per-attempt scenarios and
returns the concatenated event trace. -/
def start (parse : String → Option String) (clients : List Client)
    (scenarios : List Scenario) : List REv :=
  (scenarios.map (connect_to_ais_stream parse clients)).flatten

end AisStream

/-- Concrete index holding exactly one record, the spec's scenario:
`(zoom=8, column=45, rowTMS=165)` with bytes `[1, 2, 3]`. -/
def db8 : Tiles.TileDB := fun k => if k = (8, 45, 165) then some [1, 2, 3] else none

/-- Concrete index with a record at every key. -/
def dbFull : Tiles.TileDB := fun _ => some [7]

/-- Concrete index with no records. -/
def dbEmpty : Tiles.TileDB := fun _ => none

/-- C1: for every zoom `z`, column `x` and XYZ row `y`, if the tile package
contains a record at key `(zoom=z, column=x, rowTMS=2^z-1-y)`, then
`get_tile z x y` returns exactly that record's stored bytes, unmodified.
The hypothesis `0 ≤ z` is forced by the claim's own key: for a negative
zoom `2^z - 1 - y` is not an integer, so no integer-keyed record can sit
at it. -/
theorem c1_get_tile_returns_stored_bytes (db : Tiles.TileDB) (z x y : Int)
    (blob : List Nat) (hz : 0 ≤ z)
    (hdb : db (z, x, (2 : Int) ^ z.toNat - 1 - y) = some blob) :
    Tiles.get_tile ⟨true, db⟩ z x y = .ok blob := by
  simp [Tiles.get_tile, not_lt.mpr hz, hdb]

/-- Witness for C1 at the spec's concrete scenario: requesting
`(z=8, x=45, y=90)` against a package containing only
`(zoom=8, column=45, rowTMS=165)` returns that record's exact bytes. -/
theorem c1_witness :
    Tiles.get_tile ⟨true, db8⟩ 8 45 90 = .ok [1, 2, 3] :=
  c1_get_tile_returns_stored_bytes db8 8 45 90 [1, 2, 3] (by decide) (by decide)

/-- Counterexample to C8 as stated: `getTile` has a third failure outcome.
With the package present (and even a record at every key), the call at
zoom `-1` fails with the negative-shift `ValueError` — neither the
missing-package `ConfigurationError` nor `NotFound` — surfaced as a
generic 500. -/
theorem c8_counterexample_negative_zoom_third_failure :
    Tiles.get_tile ⟨true, dbFull⟩ (-1) 0 0 = .error .valueError ∧
    Tiles.TileErr.valueError ≠ .fileNotFound ∧
    Tiles.TileErr.valueError ≠ .http404 ∧
    Tiles.get_ownership_tile ⟨true, dbFull⟩ (-1) 0 0 = ⟨500, none, none⟩ :=
  ⟨rfl, by decide, by decide, rfl⟩

/-- C8 amended: for nonnegative zoom, `getTile` has exactly two failure
outcomes, kept distinct — missing package file makes every call fail with
the configuration error (HTTP 500), and a lookup miss against a present
package returns `NotFound` (HTTP 404) and never any other error or corrupt
bytes; a negative zoom additionally fails with a shift `ValueError`
surfaced as a generic 500. -/
theorem c8_amended_two_failure_outcomes :
    (∀ (db : Tiles.TileDB) (z x y : Int), 0 ≤ z →
        Tiles.get_tile ⟨false, db⟩ z x y = .error .fileNotFound ∧
        Tiles.get_ownership_tile ⟨false, db⟩ z x y = ⟨500, none, none⟩) ∧
    (∀ (db : Tiles.TileDB) (z x y : Int), 0 ≤ z →
        db (z, x, (2 : Int) ^ z.toNat - 1 - y) = none →
        Tiles.get_tile ⟨true, db⟩ z x y = .error .http404 ∧
        Tiles.get_ownership_tile ⟨true, db⟩ z x y = ⟨404, none, none⟩) ∧
    (∀ (srv : Tiles.TileServer) (z x y : Int) (e : Tiles.TileErr), 0 ≤ z →
        Tiles.get_tile srv z x y = .error e →
        e = .fileNotFound ∨ e = .http404) := by
  refine ⟨?_, ?_, ?_⟩
  · intro db z x y hz
    constructor
    · simp [Tiles.get_tile, not_lt.mpr hz]
    · simp [Tiles.get_ownership_tile, Tiles.get_tile, not_lt.mpr hz]
  · intro db z x y hz hmiss
    constructor
    · simp [Tiles.get_tile, not_lt.mpr hz, hmiss]
    · simp [Tiles.get_ownership_tile, Tiles.get_tile, not_lt.mpr hz, hmiss]
  · intro srv z x y e hz h
    rw [Tiles.get_tile, if_neg (not_lt.mpr hz)] at h
    by_cases hf : srv.fileOnDisk
    · rw [if_pos hf] at h
      cases hdb : srv.db (z, x, 2 ^ z.toNat - 1 - y) with
      | none => rw [hdb] at h; injection h with h; exact Or.inr h.symm
      | some b => rw [hdb] at h; cases h
    · rw [if_neg hf] at h; injection h with h; exact Or.inl h.symm

/-- Counterexample to C9 as stated: the out-of-range zoom `-1` does cause a
computation error — the negative-shift `ValueError`, surfaced as 500 —
instead of a `NotFound` outcome. -/
theorem c9_counterexample_negative_zoom_error :
    Tiles.get_tile ⟨true, dbEmpty⟩ (-1) 0 0 = .error .valueError ∧
    Tiles.get_tile ⟨true, dbEmpty⟩ (-1) 0 0 ≠ .error .http404 ∧
    Tiles.get_ownership_tile ⟨true, dbEmpty⟩ (-1) 0 0 = ⟨500, none, none⟩ := by
  refine ⟨rfl, ?_, rfl⟩
  intro h
  injection h with h
  cases h

/-- C9 amended: for every nonnegative integer zoom outside the expected
range `[4, 14]`, `get_tile` performs no range validation — the lookup
proceeds with the degenerate row index and, the index holding no matching
row, yields `NotFound` (HTTP 404); a negative zoom instead raises the
shift error surfaced as 500. -/
theorem c9_amended_out_of_range_nonnegative (db : Tiles.TileDB) (z x y : Int)
    (hz : 0 ≤ z) (_hrange : z < 4 ∨ 14 < z)
    (hmiss : db (z, x, (2 : Int) ^ z.toNat - 1 - y) = none) :
    Tiles.get_tile ⟨true, db⟩ z x y = .error .http404 ∧
    Tiles.get_ownership_tile ⟨true, db⟩ z x y = ⟨404, none, none⟩ := by
  constructor
  · simp [Tiles.get_tile, not_lt.mpr hz, hmiss]
  · simp [Tiles.get_ownership_tile, Tiles.get_tile, not_lt.mpr hz, hmiss]

/-- Witness for the amended C9 at zoom 0 (below the expected range) against
an empty index: the outcome is the 404 `NotFound`. -/
theorem c9_witness :
    Tiles.get_tile ⟨true, dbEmpty⟩ 0 0 0 = .error .http404 ∧
    Tiles.get_ownership_tile ⟨true, dbEmpty⟩ 0 0 0 = ⟨404, none, none⟩ :=
  c9_amended_out_of_range_nonnegative dbEmpty 0 0 0 (by decide)
    (Or.inl (by decide)) rfl

/-- Helper: an interleaving-free send loop visits every member of the
iterator's snapshot, attempts one send per member with the single
serialized payload, and partitions the members by send outcome, leaving
the live set untouched. -/
theorem sendLoop_nil_evs (serialize : String → String)
    (sendOk : AisStream.Client → Bool) (message : String)
    (live : List AisStream.Client) :
    ∀ toVisit : List AisStream.Client,
      AisStream.sendLoop serialize sendOk message live.length toVisit live [] =
        .ok (toVisit.map (fun c => (c, serialize message)),
             toVisit.filter sendOk,
             toVisit.filter (fun c => !(sendOk c)),
             live) := by
  intro toVisit
  induction toVisit with
  | nil => rw [AisStream.sendLoop]; simp
  | cons c rest ih =>
    rw [AisStream.sendLoop]
    simp only [if_pos rfl, AisStream.applyEvs, List.headD, List.tail,
      List.foldl, ih, List.map_cons, List.filter_cons]
    by_cases h : sendOk c <;> simp [h]

/-- Helper: removing the collected failures from the untouched live set
keeps exactly the members whose send succeeded. -/
theorem filter_not_contains_failures (p : AisStream.Client → Bool)
    (l : List AisStream.Client) :
    l.filter (fun c => !((l.filter fun x => !(p x)).contains c)) = l.filter p := by
  apply List.filter_congr
  intro c hc
  by_cases h : p c <;> simp [h, List.mem_filter, hc]

/-- Helper: an interleaving-free `broadcast` call in closed form: one
serialization when the set is non-empty and none when it is empty, one
send attempt per registered client with the same payload, delivery to
exactly the clients whose send succeeds, and exactly the failing clients
removed from the registry. -/
theorem broadcast_nil_evs (serialize : String → String)
    (sendOk : AisStream.Client → Bool) (message : String)
    (clients : List AisStream.Client) :
    AisStream.broadcast serialize sendOk clients message [] =
      .ok ⟨clients.map (fun c => (c, serialize message)),
           clients.filter sendOk,
           clients.filter sendOk,
           if clients.isEmpty then 0 else 1⟩ := by
  cases clients with
  | nil => rfl
  | cons c rest =>
    rw [AisStream.broadcast]
    · simp only [sendLoop_nil_evs, List.isEmpty_cons]
      rw [filter_not_contains_failures]
      rfl
    · intro h
      exact List.cons_ne_nil c rest h

/-- C2: for every registered client set and every message, an
interleaving-free `broadcast` delivers the message to every client whose
send succeeds, removes exactly the failing clients from the registry (the
`clientsAfter` component, which is the set the next `broadcast` call
reads), and returns normally — no error reaches its caller. The
equality gives the call's complete observable behaviour in closed form. -/
theorem c2_broadcast_isolates_send_failures (serialize : String → String)
    (sendOk : AisStream.Client → Bool) (message : String)
    (clients : List AisStream.Client) :
    AisStream.broadcast serialize sendOk clients message [] =
      .ok ⟨clients.map (fun c => (c, serialize message)),
           clients.filter sendOk,
           clients.filter sendOk,
           if clients.isEmpty then 0 else 1⟩ :=
  broadcast_nil_evs serialize sendOk message clients

/-- C5: `broadcast` with zero registered clients performs no serialization
(its outcome does not even depend on the serializer) and has no observable
effect; with a non-empty set the message is serialized exactly once and
that single serialized form is the payload of the send attempt made to
every registered connection. -/
theorem c5_broadcast_serializes_once :
    (∀ (s1 s2 : String → String) (sendOk : AisStream.Client → Bool)
        (message : String) (evs : List (List AisStream.SetEv)),
        AisStream.broadcast s1 sendOk [] message evs =
          AisStream.broadcast s2 sendOk [] message evs) ∧
    (∀ (s1 : String → String) (sendOk : AisStream.Client → Bool)
        (message : String) (evs : List (List AisStream.SetEv)),
        AisStream.broadcast s1 sendOk [] message evs = .ok ⟨[], [], [], 0⟩) ∧
    (∀ (serialize : String → String) (sendOk : AisStream.Client → Bool)
        (message : String) (clients : List AisStream.Client), clients ≠ [] →
        AisStream.broadcast serialize sendOk clients message [] =
          .ok ⟨clients.map (fun c => (c, serialize message)),
               clients.filter sendOk, clients.filter sendOk, 1⟩) := by
  refine ⟨fun s1 s2 sendOk message evs => rfl,
          fun s1 sendOk message evs => rfl,
          fun serialize sendOk message clients h => ?_⟩
  rw [broadcast_nil_evs]
  cases clients with
  | nil => exact absurd rfl h
  | cons c rest => rfl

/-- C4 is a code bug: `broadcast` iterates `self.clients` itself, not a
snapshot. With two registered clients whose sends both succeed, a
concurrent `remove_client` running while the send to the first client is
awaited changes the set's size, and the iterator's next step raises
`RuntimeError: Set changed size during iteration`, which propagates to
`broadcast`'s caller — the second client is never visited. The second
conjunct shows the identical call without the interleaving completes
normally, isolating the interleaving as the cause. -/
theorem c4_live_set_iteration_corrupted_by_concurrent_removal :
    AisStream.broadcast (fun s => s) (fun _ => true) [1, 2] "m"
        [[AisStream.SetEv.remove 2]] = .error .runtimeError ∧
    AisStream.broadcast (fun s => s) (fun _ => true) [1, 2] "m" [] =
      .ok ⟨[(1, "m"), (2, "m")], [1, 2], [1, 2], 1⟩ :=
  ⟨rfl, rfl⟩

/-- Helper: with no registered clients the message loop only records the
receptions — no parsing, no broadcasting — and always ends normally. -/
theorem streamMsgs_no_clients (parse : String → Option String) :
    ∀ msgs : List String,
      AisStream.streamMsgs parse [] msgs = (msgs.map .received, .ok ()) := by
  intro msgs
  induction msgs with
  | nil => rfl
  | cons m rest ih => rw [AisStream.streamMsgs]; simp [ih]

/-- Helper: the message loop never emits a subscription event. -/
theorem subscribeSent_not_mem_streamMsgs (parse : String → Option String)
    (clients : List AisStream.Client) :
    ∀ msgs : List String,
      AisStream.REv.subscribeSent ∉ (AisStream.streamMsgs parse clients msgs).1 := by
  intro msgs
  induction msgs with
  | nil => simp [AisStream.streamMsgs]
  | cons m rest ih =>
    rw [AisStream.streamMsgs]
    by_cases hc : clients.isEmpty
    · simp [hc]
      exact ih
    · simp [hc]
      cases hp : parse m with
      | some d => simp [hp]; exact ih
      | none => simp [hp]

/-- Helper: with at least one registered client, the message loop forwards
each parseable message and aborts with a parse error at the first
unparseable one, leaving the rest of the stream unread: the trace is
exactly one reception and one broadcast per earlier message, then the
reception of the offending message. -/
theorem streamMsgs_parse_failure (parse : String → Option String)
    (clients : List AisStream.Client) (hc : clients.isEmpty = false)
    (bad : String) (hbad : parse bad = none) :
    ∀ (pre : List String), (∀ m ∈ pre, (parse m).isSome) →
      ∀ (post : List String),
        AisStream.streamMsgs parse clients (pre ++ bad :: post) =
          ((pre.flatMap fun m =>
              [.received m, .broadcastCall ((parse m).getD "")]) ++
            [.received bad],
           .error .parseError) := by
  intro pre
  induction pre with
  | nil =>
    intro _ post
    rw [List.nil_append, AisStream.streamMsgs]
    simp [hc, hbad]
  | cons m rest ih =>
    intro hpre post
    obtain ⟨d, hd⟩ := Option.isSome_iff_exists.mp (hpre m (by simp))
    rw [List.cons_append, AisStream.streamMsgs]
    simp only [hc, Bool.false_eq_true, if_false, hd]
    rw [ih (fun x hx => hpre x (by simp [hx])) post]
    simp [hd]

/-- Helper: whenever the connection and the subscription send succeed, the
attempt's trace opens with the connection and the one subscription send,
followed only by message-loop events. -/
theorem attemptBody_success_trace (parse : String → Option String)
    (clients : List AisStream.Client) (s : AisStream.Scenario)
    (h1 : s.connectOk = true) (h2 : s.sendSubOk = true) :
    (AisStream.attemptBody parse clients s).1 =
      .connectAttempt :: .subscribeSent ::
        (AisStream.streamMsgs parse clients s.inbound).1 := by
  rw [AisStream.attemptBody]
  simp only [h1, h2, if_true]
  cases hr : (AisStream.streamMsgs parse clients s.inbound).2 with
  | error e => simp [hr]
  | ok u => cases u; simp [hr]

/-- Helper: an attempt whose connection or subscription send fails leaves
only the connection event in its trace. -/
theorem attemptBody_failed_setup (parse : String → Option String)
    (clients : List AisStream.Client) (s : AisStream.Scenario)
    (h : s.connectOk = false ∨ s.sendSubOk = false) :
    (AisStream.attemptBody parse clients s).1 = [.connectAttempt] := by
  rw [AisStream.attemptBody]
  rcases h with h | h
  · simp [h]
  · cases h1 : s.connectOk <;> simp [h, h1]

/-- Helper: the reconnect wrapper only ever appends a sleep event, so it
emits exactly as many subscription events as the attempt body. -/
theorem count_subscribeSent_connect_eq (parse : String → Option String)
    (clients : List AisStream.Client) (s : AisStream.Scenario) :
    (AisStream.connect_to_ais_stream parse clients s).count
        AisStream.REv.subscribeSent =
      (AisStream.attemptBody parse clients s).1.count
        AisStream.REv.subscribeSent := by
  rw [AisStream.connect_to_ais_stream]
  rcases h : AisStream.attemptBody parse clients s with ⟨evs, res⟩
  cases res with
  | ok u => cases u; simp
  | error e => simp [List.count_append]

/-- Helper: one reconnect-loop iteration emits exactly one subscription
event when the connection attempt and the subscription send both succeed,
and none otherwise. -/
theorem count_subscribeSent_one_attempt (parse : String → Option String)
    (clients : List AisStream.Client) (s : AisStream.Scenario) :
    (AisStream.connect_to_ais_stream parse clients s).count
        AisStream.REv.subscribeSent =
      if s.connectOk && s.sendSubOk then 1 else 0 := by
  rw [count_subscribeSent_connect_eq]
  cases h1 : s.connectOk with
  | false =>
    rw [attemptBody_failed_setup parse clients s (Or.inl h1)]
    simp [h1]
  | true =>
    cases h2 : s.sendSubOk with
    | false =>
      rw [attemptBody_failed_setup parse clients s (Or.inr h2)]
      simp [h1, h2]
    | true =>
      rw [attemptBody_success_trace parse clients s h1 h2]
      have hnot := subscribeSent_not_mem_streamMsgs parse clients s.inbound
      simp [h1, h2, List.count_cons, List.count_eq_zero.mpr hnot]

/-- Helper: with no registered clients a connection attempt is fully
determined by the scenario alone — the parse function is never consulted:
the trace is the connect event, then (when the setup succeeds) the one
subscription and one reception per inbound message, and the outcome is
decided by the setup flags and the close cause only. -/
theorem attemptBody_no_clients (parse : String → Option String)
    (s : AisStream.Scenario) :
    AisStream.attemptBody parse [] s =
      (if s.connectOk then
         if s.sendSubOk then
           .connectAttempt :: .subscribeSent :: s.inbound.map .received
         else [.connectAttempt]
       else [.connectAttempt],
       if s.connectOk then
         if s.sendSubOk then
           match s.closeCause with
           | .cleanClose => .ok ()
           | .recvError => .error .recvFailed
         else .error .sendFailed
       else .error .connectFailed) := by
  rw [AisStream.attemptBody]
  cases h1 : s.connectOk <;> cases h2 : s.sendSubOk <;>
    simp [h1, h2, streamMsgs_no_clients]

/-- C10: an inbound message received while zero downstream clients are
registered is neither parsed nor broadcast: the whole attempt is
independent of the parse function, its trace holds no broadcast call, and
its outcome is never a parse error — so while the client set is empty a
malformed upstream message cannot force a reconnection. -/
theorem c10_no_clients_no_parse (p1 p2 : String → Option String)
    (s : AisStream.Scenario) :
    AisStream.attemptBody p1 [] s = AisStream.attemptBody p2 [] s ∧
    (∀ d, AisStream.REv.broadcastCall d ∉ (AisStream.attemptBody p1 [] s).1) ∧
    (AisStream.attemptBody p1 [] s).2 ≠ .error .parseError ∧
    AisStream.connect_to_ais_stream p1 [] s =
      AisStream.connect_to_ais_stream p2 [] s := by
  have hb1 := attemptBody_no_clients p1 s
  have hb2 := attemptBody_no_clients p2 s
  have heq : AisStream.attemptBody p1 [] s = AisStream.attemptBody p2 [] s := by
    rw [hb1, hb2]
  refine ⟨heq, ?_, ?_, ?_⟩
  · intro d
    rw [hb1]
    by_cases hc : s.connectOk <;> by_cases hs : s.sendSubOk <;>
      simp [hc, hs, List.mem_map]
  · rw [hb1]
    by_cases hc : s.connectOk <;> by_cases hs : s.sendSubOk <;>
      cases hcc : s.closeCause <;> simp [hc, hs, hcc]
  · rw [AisStream.connect_to_ais_stream, AisStream.connect_to_ais_stream, heq]

/-- Counterexample to C3 as stated: two upstream sessions that end in a
clean remote close. The attempt body returns normally, so the fixed
five-second sleep in the `except` branch never runs and the supervision
loop re-enters connecting immediately — the trace of the two attempts
holds no sleep event at all, while the claim demands a 5-second delay
after every exit from the streaming state. -/
theorem c3_counterexample_clean_close_reconnects_immediately :
    AisStream.start (fun _ => none) []
        [⟨true, true, [], .cleanClose⟩, ⟨true, true, [], .cleanClose⟩] =
      [.connectAttempt, .subscribeSent, .connectAttempt, .subscribeSent] ∧
    AisStream.REv.sleep 5 ∉
      AisStream.start (fun _ => none) []
        [⟨true, true, [], .cleanClose⟩, ⟨true, true, [], .cleanClose⟩] :=
  ⟨by decide, by decide⟩

/-- C3 amended: every attempt that leaves the connecting, subscribed or
streaming state through an error — connect failure, subscription send
failure, receive failure or parse failure alike — is followed by the same
fixed five-second delay, uniformly, with no backoff and no error-type
discrimination; an attempt that ends in a clean remote close, however,
returns without any delay and the loop reconnects immediately. -/
theorem c3_amended_fixed_delay_on_errors_only (parse : String → Option String)
    (clients : List AisStream.Client) (s : AisStream.Scenario) :
    ((AisStream.attemptBody parse clients s).2 = .ok () →
      AisStream.connect_to_ais_stream parse clients s =
        (AisStream.attemptBody parse clients s).1) ∧
    (∀ e, (AisStream.attemptBody parse clients s).2 = .error e →
      AisStream.connect_to_ais_stream parse clients s =
        (AisStream.attemptBody parse clients s).1 ++ [.sleep 5]) := by
  rcases h : AisStream.attemptBody parse clients s with ⟨evs, res⟩
  rw [AisStream.connect_to_ais_stream, h]
  constructor
  · intro hok
    rw [show res = Except.ok () from hok]
  · intro e herr
    rw [show res = Except.error e from herr]

/-- Counterexample to C6 as stated: with zero registered clients both
inbound messages are unparseable (the parse function rejects everything),
yet the relay skips them without parsing, keeps consuming the stream to
its end — the trace holds a reception for the second message after the
unparseable first — and the attempt ends normally, with no disconnect and
no sleep. -/
theorem c6_counterexample_no_clients_skips_unparseable :
    AisStream.attemptBody (fun _ => none) []
        ⟨true, true, ["X", "Y"], .cleanClose⟩ =
      ([.connectAttempt, .subscribeSent, .received "X", .received "Y"],
       .ok ()) ∧
    AisStream.connect_to_ais_stream (fun _ => none) []
        ⟨true, true, ["X", "Y"], .cleanClose⟩ =
      [.connectAttempt, .subscribeSent, .received "X", .received "Y"] :=
  ⟨rfl, rfl⟩

/-- C6 amended: for every inbound message that cannot be parsed and is
received while at least one client is registered, the relay treats it as
a fatal stream error: the attempt's trace ends at that message's
reception (the rest of the stream is never consumed), the outcome is the
parse error, and the reconnect wrapper appends the disconnection delay —
rather than skipping the message and reading on. -/
theorem c6_amended_parse_failure_with_clients (parse : String → Option String)
    (clients : List AisStream.Client) (hc : clients.isEmpty = false)
    (pre post : List String) (bad : String)
    (hpre : ∀ m ∈ pre, (parse m).isSome) (hbad : parse bad = none)
    (cc : AisStream.CloseCause) :
    AisStream.attemptBody parse clients ⟨true, true, pre ++ bad :: post, cc⟩ =
      (.connectAttempt :: .subscribeSent ::
         ((pre.flatMap fun m =>
             [.received m, .broadcastCall ((parse m).getD "")]) ++
           [.received bad]),
       .error .parseError) ∧
    AisStream.connect_to_ais_stream parse clients
        ⟨true, true, pre ++ bad :: post, cc⟩ =
      (.connectAttempt :: .subscribeSent ::
         ((pre.flatMap fun m =>
             [.received m, .broadcastCall ((parse m).getD "")]) ++
           [.received bad])) ++ [.sleep 5] := by
  have hs := streamMsgs_parse_failure parse clients hc bad hbad pre hpre post
  have hbody : AisStream.attemptBody parse clients
      ⟨true, true, pre ++ bad :: post, cc⟩ =
      (.connectAttempt :: .subscribeSent ::
         ((pre.flatMap fun m =>
             [.received m, .broadcastCall ((parse m).getD "")]) ++
           [.received bad]),
       .error .parseError) := by
    rw [AisStream.attemptBody]
    dsimp only
    rw [hs]
    rfl
  refine ⟨hbody, ?_⟩
  rw [AisStream.connect_to_ais_stream, hbody]

/-- Witness for the amended C6: one registered client, a parseable message
then an unparseable one then a further message; the parseable one is
forwarded, the unparseable one ends the attempt with the parse error and
the five-second delay, and the third is never read. -/
theorem c6_witness :
    AisStream.attemptBody (fun m => if m = "X" then none else some m) [7]
        ⟨true, true, ["A", "X", "Z"], .cleanClose⟩ =
      ([.connectAttempt, .subscribeSent, .received "A", .broadcastCall "A",
        .received "X"],
       .error .parseError) ∧
    AisStream.connect_to_ais_stream (fun m => if m = "X" then none else some m)
        [7] ⟨true, true, ["A", "X", "Z"], .cleanClose⟩ =
      [.connectAttempt, .subscribeSent, .received "A", .broadcastCall "A",
       .received "X", .sleep 5] :=
  c6_amended_parse_failure_with_clients
    (fun m => if m = "X" then none else some m) [7] rfl ["A"] ["Z"] "X"
    (by decide) rfl .cleanClose

/-- Helper: the supervision loop's trace decomposes attempt by attempt. -/
theorem start_cons (parse : String → Option String)
    (clients : List AisStream.Client) (s : AisStream.Scenario)
    (rest : List AisStream.Scenario) :
    AisStream.start parse clients (s :: rest) =
      AisStream.connect_to_ais_stream parse clients s ++
        AisStream.start parse clients rest := by
  rw [AisStream.start, AisStream.start, List.map_cons, List.flatten_cons]

/-- C7: on every successful upstream connection the relay sends exactly one
subscription message, and it does so before consuming any inbound message:
the attempt's trace opens with the connection and the single subscription
event, so every reception and every broadcast call comes after it. Across
the supervision loop — reconnections included — the number of
subscription events equals the number of attempts whose connection and
subscription send succeeded. -/
theorem c7_subscribe_once_before_any_message (parse : String → Option String)
    (clients : List AisStream.Client) :
    (∀ s : AisStream.Scenario, s.connectOk = true → s.sendSubOk = true →
      ∃ rest, (AisStream.attemptBody parse clients s).1 =
          .connectAttempt :: .subscribeSent :: rest ∧
        AisStream.REv.subscribeSent ∉ rest) ∧
    (∀ scenarios : List AisStream.Scenario,
      (AisStream.start parse clients scenarios).count
          AisStream.REv.subscribeSent =
        scenarios.countP (fun s => s.connectOk && s.sendSubOk)) := by
  constructor
  · intro s h1 h2
    exact ⟨(AisStream.streamMsgs parse clients s.inbound).1,
      attemptBody_success_trace parse clients s h1 h2,
      subscribeSent_not_mem_streamMsgs parse clients s.inbound⟩
  · intro scenarios
    induction scenarios with
    | nil => rfl
    | cons s rest ih =>
      rw [start_cons, List.count_append, count_subscribeSent_one_attempt,
        ih, List.countP_cons]
      by_cases hp : s.connectOk && s.sendSubOk
      · simp [hp, Nat.add_comm]
      · simp [hp]
